import Mathlib

/-!
Verification of the Trust Scoring and Zap/Payment Resolution engine of the
AURA repository.  The engine implementation itself (the wot store, the zap
service and the cashu ledger service) is not shipped in the repository
snapshot; only its unit tests and its UI consumers are.  Every definition
below is therefore modelled from the specification (spec.md), constrained by
the behaviour the unit tests demand, and each claim is settled against these
spec-modelled definitions.
-/

/- ===================== Trust Scorer (spec section 4.1) ===================== -/

/-- Modelled from the spec: the kind of a directed trust edge
(`Follow | Mute | Report`), from the Trust Edge data model in section 3.
The wot service source is missing from the snapshot. -/
inductive EdgeKind
  | follow
  | mute
  | report
deriving DecidableEq

/-- Modelled from the spec: a directed trust edge
`{source, target, kind, timestamp}` (section 3, Trust Edge). -/
structure TrustEdge where
  source : String
  target : String
  kind : EdgeKind
  timestamp : Nat
deriving DecidableEq

/-- Modelled from the spec: the graph cache holding the fetched
follow/mute/report edges (section 2, Graph Cache). -/
def GraphCache := List TrustEdge

/-- Modelled from the spec: trust tiers
`Self|Trusted|FriendOfFriend|Extended|Muted|Unknown` (section 3,
Trust Indicator). -/
inductive TrustLevel
  | self
  | trusted
  | friendOfFriend
  | extended
  | muted
  | unknown
deriving DecidableEq

/-- Modelled from the spec: the derived trust indicator
`{level, score, label, color}` (section 3). -/
structure TrustIndicator where
  level : TrustLevel
  score : Nat
  label : String
  color : String
deriving DecidableEq

/-- Maximum trust score, assigned to the self actor (spec 4.1: score = max). -/
def maxScore : Nat := 100

/-- Minimum trust score, assigned to muted actors (spec 4.1: score = minimum). -/
def minScore : Nat := 0

/-- High-tier score for direct follows (spec 4.1, `Trusted`). -/
def trustedScore : Nat := 80

/-- Mid-tier base score for friends of friends (spec 4.1). -/
def fofBase : Nat := 50

/-- Cap for the popularity-weighted friend-of-friend boost (spec 4.1:
"Score may increase with the count of such distinct x ... capped"). -/
def fofCap : Nat := 70

/-- Score for the bounded second-degree `Extended` tier (spec 4.1). -/
def extendedScore : Nat := 30

/-- Score for actors with no cached graph relation (spec 4.1, `Unknown`). -/
def unknownScore : Nat := 10

/-- Modelled from the spec: friend-of-friend score, the mid tier boosted by
the count of distinct intermediaries and capped (spec 4.1). -/
def fofScore (count : Nat) : Nat := min (fofBase + count) fofCap

/-- Modelled from the spec: whether the cache holds an edge
`s --k--> t` (section 3, Trust Edge; used by the classification of 4.1). -/
def hasEdge (cache : GraphCache) (s : String) (k : EdgeKind) (t : String) : Bool :=
  cache.any (fun e => e.source == s && e.kind == k && e.target == t)

/-- Modelled from the spec: the distinct targets of the follow edges of an
actor held in the cache (spec 4.1 traverses the follow lists of the self
actor and of its followees). -/
def followees (cache : GraphCache) (a : String) : List String :=
  ((cache.filter (fun e => e.source == a && e.kind == EdgeKind.follow)).map
    (fun e => e.target)).dedup

/-- Modelled from the spec: membership in the bounded second-degree graph
used for the `Extended` tier; the spec (section 9) leaves the exact cutoff
tunable, so it is modelled as reachability by a three-step follow chain. -/
def inExtendedGraph (cache : GraphCache) (s actor : String) : Bool :=
  (followees cache s).any (fun x =>
    (followees cache x).any (fun y => hasEdge cache y EdgeKind.follow actor))

/-- Modelled from the spec: `classify(actor) -> TrustIndicator`, the
synchronous classification of 4.1 with the fixed precedence
Self > Muted > Trusted > FriendOfFriend > Extended > Unknown.  The wot
service source is missing from the snapshot; labels follow the levels the
TrustBadge component dispatches on. -/
def classify (s : String) (cache : GraphCache) (actor : String) : TrustIndicator :=
  if actor = s then
    ⟨TrustLevel.self, maxScore, "You", "text-blue-400"⟩
  else if hasEdge cache s EdgeKind.mute actor then
    ⟨TrustLevel.muted, minScore, "Muted", "text-red-400"⟩
  else if hasEdge cache s EdgeKind.follow actor then
    ⟨TrustLevel.trusted, trustedScore, "Trusted", "text-green-400"⟩
  else
    let fofCount :=
      ((followees cache s).filter (fun x => hasEdge cache x EdgeKind.follow actor)).length
    if 0 < fofCount then
      ⟨TrustLevel.friendOfFriend, fofScore fofCount, "Friend of Friend", "text-emerald-400"⟩
    else if inExtendedGraph cache s actor then
      ⟨TrustLevel.extended, extendedScore, "Network", "text-yellow-400"⟩
    else
      ⟨TrustLevel.unknown, unknownScore, "Unknown", "text-gray-400"⟩

/- ===================== WoT Filter Policy (spec section 4.2) ===================== -/

/-- Modelled from the spec: the configurable filter threshold
`All|Extended|FriendOfFriend|Trusted` (section 3, WoT Filter State); the
constructor names follow the values of the TrustFilter component. -/
inductive WoTFilterLevel
  | all
  | extended
  | fof
  | trusted
deriving DecidableEq

/-- Modelled from the spec: the process-wide filter state
`{filterLevel, showUnknown}` (section 3, WoT Filter State). -/
structure WoTFilterState where
  filterLevel : WoTFilterLevel
  showUnknown : Bool
deriving DecidableEq

/-- Rank of a trust level for the threshold comparison of spec 4.2
(`Trusted > FriendOfFriend > Extended`); the self actor outranks every
threshold and `Unknown`/`Muted` sit below all of them. -/
def levelRank : TrustLevel → Nat
  | TrustLevel.self => 4
  | TrustLevel.trusted => 3
  | TrustLevel.friendOfFriend => 2
  | TrustLevel.extended => 1
  | TrustLevel.unknown => 0
  | TrustLevel.muted => 0

/-- Rank demanded by each configured filter level (spec 4.2:
`Trusted > FriendOfFriend > Extended > All(no threshold)`). -/
def thresholdRank : WoTFilterLevel → Nat
  | WoTFilterLevel.all => 0
  | WoTFilterLevel.extended => 1
  | WoTFilterLevel.fof => 2
  | WoTFilterLevel.trusted => 3

/-- Modelled from the spec: `passes(indicator) -> boolean` (section 4.2).
`Muted` never passes; levels below the threshold are excluded unless
`showUnknown` is set and the indicator is `Unknown`. -/
def passes (st : WoTFilterState) (ind : TrustIndicator) : Bool :=
  if ind.level = TrustLevel.muted then false
  else if thresholdRank st.filterLevel ≤ levelRank ind.level then true
  else st.showUnknown && ind.level == TrustLevel.unknown

/- ===================== Claims C1, C8, C9 ===================== -/

/-- Claim C8: regardless of the contents of the graph cache, `classify`
applied to the self actor returns level `Self` with the maximum score; no
edge data affects the classification of the self actor. -/
theorem c8_classify_self (s : String) (cache : GraphCache) :
    (classify s cache s).level = TrustLevel.self
    ∧ (classify s cache s).score = maxScore := by
  unfold classify
  rw [if_pos rfl]
  exact ⟨rfl, rfl⟩

/-- Concrete graph cache refuting claim C1 as stated: a mute edge from the
self actor to itself. -/
def c1CexCache : GraphCache := [⟨"alice", "alice", EdgeKind.mute, 0⟩]

/-- Counterexample to claim C1 as stated: with a mute edge
`self --Mute--> self` in the cache, the edge exists yet `classify(self)`
is `Self`, not `Muted`, because the fixed precedence of spec 4.1 puts
`Self` above `Muted`. -/
theorem c1_counterexample :
    hasEdge c1CexCache "alice" EdgeKind.mute "alice" = true
    ∧ ¬((classify "alice" c1CexCache "alice").level = TrustLevel.muted) := by
  decide

/-- Claim C1 (amended): for every actor distinct from the self actor with an
edge `self --Mute--> actor` in the graph cache, `classify` returns level
`Muted` with the minimum score, even if a follow edge also exists; mute
dominates every follow-based tier. -/
theorem c1_mute_dominates (s a : String) (cache : GraphCache)
    (hne : a ≠ s) (hm : hasEdge cache s EdgeKind.mute a = true) :
    (classify s cache a).level = TrustLevel.muted
    ∧ (classify s cache a).score = minScore := by
  unfold classify
  rw [if_neg hne, if_pos hm]
  exact ⟨rfl, rfl⟩

/-- Concrete graph cache with both a mute edge and a follow edge from the
self actor to the same target. -/
def c1WitCache : GraphCache :=
  [⟨"alice", "bob", EdgeKind.mute, 5⟩, ⟨"alice", "bob", EdgeKind.follow, 6⟩]

/-- Witness for the amended claim C1 at a concrete cache holding both a
mute edge and a follow edge from alice to bob. -/
theorem c1_mute_dominates_witness :
    (classify "alice" c1WitCache "bob").level = TrustLevel.muted
    ∧ (classify "alice" c1WitCache "bob").score = minScore :=
  c1_mute_dominates "alice" "bob" c1WitCache (by decide) (by decide)

/-- Claim C9: for every trust indicator and every value of the showUnknown
flag, `passes` with `filterLevel = All` returns true exactly when the
indicator's level is not `Muted`, and false when it is `Muted`. -/
theorem c9_filter_all (su : Bool) (ind : TrustIndicator) :
    passes ⟨WoTFilterLevel.all, su⟩ ind = !(ind.level == TrustLevel.muted) := by
  rcases ind with ⟨lv, sc, lb, co⟩
  cases lv <;> rfl

/- ===================== Payment Target Resolver (spec section 4.3) ===================== -/

/-- Modelled from the spec: the payment endpoint descriptor
`{callbackUrl, minSendable, maxSendable, metadata, supportsProtocolComment,
commentMaxLength, recipientProtocolKey?}` (section 3).  The zap service
source is missing from the snapshot. -/
structure PaymentEndpointDescriptor where
  callbackUrl : String
  minSendable : Nat
  maxSendable : Nat
  metadata : String
  supportsProtocolComment : Bool
  commentMaxLength : Nat
  recipientProtocolKey : Option String
deriving DecidableEq

/-- Modelled from the spec: the resolver error taxonomy of section 7 that
the resolver of 4.3 can surface. -/
inductive ResolveError
  | invalidTarget
  | unsupportedTarget
  | malformedResponse
  | timeout
  | upstreamError (status : String)
deriving DecidableEq

/-- Modelled from the spec: the payment-request document fetched from the
well-known lookup URL (spec 4.3 and the LnurlPayResponse shape of the unit
tests: callback, minSendable, maxSendable, metadata, tag, allowsNostr,
nostrPubkey, commentAllowed). -/
structure LnurlPayDoc where
  callback : Option String
  minSendable : Option Nat
  maxSendable : Option Nat
  metadata : String
  tag : String
  allowsNostr : Option Bool
  nostrPubkey : Option String
  commentAllowed : Option Nat
deriving DecidableEq

/-- Modelled from the spec: the outcome of one invocation of the HTTP fetch
primitive (section 6): a parsed document, a non-2xx status, or a timeout. -/
inductive FetchOutcome
  | ok (doc : LnurlPayDoc)
  | httpError (status : String)
  | timeout
deriving DecidableEq

/-- Whether the protocol-native tag `lnurl1` heads the input; stands for the
bech32 human-readable-part test of the missing zap service. -/
def hasNativeTag (input : String) : Bool :=
  List.isPrefixOf "lnurl1".data input.data

/-- Whether a callback URL is an HTTPS URL (spec 4.3: `callback` must be
present and an HTTPS URL). -/
def isHttps (u : String) : Bool :=
  List.isPrefixOf "https://".data u.data

/-- Decimal value of a digit list. -/
def natOfDigits (l : List Char) : Nat :=
  l.foldl (fun acc c => acc * 10 + (c.toNat - 48)) 0

/-- Modelled from the spec: decoding of a well-formed protocol-native
encoded payment request (spec 4.3, branch 1).  Bech32 itself is missing
from the snapshot, so the encoded form is modelled as the tag `lnurl1`
followed by the fixed amount in decimal; the descriptor carries only the
fields present in the request, with min = max = the fixed amount. -/
def decodeNative (input : String) : Option PaymentEndpointDescriptor :=
  if hasNativeTag input then
    let rest := input.data.drop 6
    if rest ≠ [] ∧ rest.all Char.isDigit then
      some { callbackUrl := input
             minSendable := natOfDigits rest
             maxSendable := natOfDigits rest
             metadata := ""
             supportsProtocolComment := false
             commentMaxLength := 0
             recipientProtocolKey := none }
    else none
  else none

/-- A string is a well-formed protocol-native encoded payment request when
it decodes (spec 4.3, branch 1). -/
def isWellFormedNative (input : String) : Bool :=
  (decodeNative input).isSome

/-- Splits a character list at the first occurrence of a character,
dropping it; `none` when the character does not occur. -/
def breakAt (c : Char) : List Char → Option (List Char × List Char)
  | [] => none
  | x :: t =>
    if x = c then some ([], t)
    else (breakAt c t).map (fun p => (x :: p.1, p.2))

/-- Modelled from the spec: classification of an email-like address
`local@domain` (spec 4.3, branch 2): exactly one at-sign, a nonempty local
part and a dotted nonempty domain. -/
def emailParts (input : String) : Option (String × String) :=
  match breakAt '@' input.data with
  | some (lo, dom) =>
    if lo ≠ [] ∧ dom ≠ [] ∧ '.' ∈ dom ∧ ¬('@' ∈ dom) then
      some (⟨lo⟩, ⟨dom⟩)
    else none
  | none => none

/-- A string is an email-like payment target when it splits into local and
domain parts (spec 4.3, branch 2). -/
def isEmailLike (input : String) : Bool :=
  (emailParts input).isSome

/-- Modelled from the spec: the well-known HTTPS lookup URL constructed at
`domain` using `local` (spec 4.3, branch 2). -/
def wellKnownUrl (lo dom : String) : String :=
  "https://" ++ dom ++ "/.well-known/lnurlp/" ++ lo

/-- Modelled from the spec: validation of the fetched payment-request
document (spec 4.3): the tag must be the payment-request type, `callback`
must be present and HTTPS, and `minSendable <= maxSendable` must be present;
otherwise `UnsupportedTarget` or `MalformedResponse`. -/
def validateDoc (doc : LnurlPayDoc) : Except ResolveError PaymentEndpointDescriptor :=
  if doc.tag = "payRequest" then
    match doc.callback, doc.minSendable, doc.maxSendable with
    | some cb, some mn, some mx =>
      if isHttps cb then
        if mn ≤ mx then
          Except.ok { callbackUrl := cb
                      minSendable := mn
                      maxSendable := mx
                      metadata := doc.metadata
                      supportsProtocolComment := doc.allowsNostr.getD false
                      commentMaxLength := doc.commentAllowed.getD 0
                      recipientProtocolKey := doc.nostrPubkey }
        else Except.error ResolveError.malformedResponse
      else Except.error ResolveError.malformedResponse
    | _, _, _ => Except.error ResolveError.malformedResponse
  else Except.error ResolveError.unsupportedTarget

/-- Turns one fetch outcome into the resolver result (spec 4.3: timeout
fails with `Timeout`, non-2xx fails with `UpstreamError` carrying the
status text, a document is validated). -/
def handleFetch : FetchOutcome → Except ResolveError PaymentEndpointDescriptor
  | FetchOutcome.timeout => Except.error ResolveError.timeout
  | FetchOutcome.httpError s => Except.error (ResolveError.upstreamError s)
  | FetchOutcome.ok doc => validateDoc doc

/-- Modelled from the spec: `resolve(input) -> PaymentEndpointDescriptor`
(spec 4.3), first match wins; the second component counts the invocations
of the fetch primitive.  The zap service source is missing from the
snapshot. -/
def resolve (net : String → FetchOutcome) (input : String) :
    Except ResolveError PaymentEndpointDescriptor × Nat :=
  match decodeNative input with
  | some d => (Except.ok d, 0)
  | none =>
    match emailParts input with
    | some p => (handleFetch (net (wellKnownUrl p.1 p.2)), 1)
    | none => (Except.error ResolveError.invalidTarget, 0)

/-- Modelled from the spec: `parseLightningAddress` of the missing zap
service, as pinned down by its unit tests: an input already in LNURL format
is returned unchanged, an email-like address is converted to its well-known
lookup URL, anything else yields null. -/
def isLnurlFormat (input : String) : Bool :=
  List.isPrefixOf "lnurl".data input.data

/-- Modelled from the spec: the total address parser of the missing zap
service (unit tests lines 50-80): LNURL-format input unchanged, email-like
input encoded, otherwise `none` rather than an exception. -/
def parseLightningAddress (input : String) : Option String :=
  if isLnurlFormat input then some input
  else
    match emailParts input with
    | some p => some (wellKnownUrl p.1 p.2)
    | none => none

/- ===================== Claims C5, C7, C10 ===================== -/

/-- Claim C5: for every input that is already a well-formed protocol-native
encoded payment request, `resolve` decodes it directly and returns a
descriptor with zero invocations of the fetch primitive. -/
theorem c5_native_no_fetch (net : String → FetchOutcome) (input : String)
    (h : isWellFormedNative input = true) :
    (resolve net input).2 = 0 ∧ ∃ d, (resolve net input).1 = Except.ok d := by
  unfold isWellFormedNative at h
  rcases hd : decodeNative input with _ | d
  · rw [hd] at h
    simp at h
  · have hres : resolve net input = (Except.ok d, 0) := by
      unfold resolve
      rw [hd]
    rw [hres]
    exact ⟨rfl, d, rfl⟩

/-- A fetch oracle that always times out; any invocation of it on a
no-fetch path would surface as a `Timeout` error. -/
def netTimeout : String → FetchOutcome := fun _ => FetchOutcome.timeout

/-- Witness for claim C5 at the concrete native request `lnurl1250`. -/
theorem c5_native_no_fetch_witness :
    isWellFormedNative "lnurl1250" = true
    ∧ ((resolve netTimeout "lnurl1250").2 = 0
       ∧ ∃ d, (resolve netTimeout "lnurl1250").1 = Except.ok d) :=
  ⟨by decide, c5_native_no_fetch netTimeout "lnurl1250" (by decide)⟩

/-- Claim C7: for every input that is neither a well-formed protocol-native
payment request nor an email-like address, `resolve` fails with
`InvalidTarget`, surfaced to the caller, with zero fetch invocations. -/
theorem c7_invalid_target (net : String → FetchOutcome) (input : String)
    (h1 : isWellFormedNative input = false) (h2 : isEmailLike input = false) :
    resolve net input = (Except.error ResolveError.invalidTarget, 0) := by
  unfold isWellFormedNative at h1
  unfold isEmailLike at h2
  rcases hd : decodeNative input with _ | d
  · rcases hp : emailParts input with _ | p
    · unfold resolve
      rw [hd, hp]
    · rw [hp] at h2
      simp at h2
  · rw [hd] at h1
    simp at h1

/-- Witness for claim C7 at the concrete invalid input used by the unit
tests. -/
theorem c7_invalid_target_witness :
    resolve netTimeout "not-an-address" = (Except.error ResolveError.invalidTarget, 0) :=
  c7_invalid_target netTimeout "not-an-address" (by decide) (by decide)

/-- Claim C10: `parseLightningAddress` is total and non-throwing: LNURL
format input is returned unchanged, every email-like address (including
local parts containing a plus sign and subdomains) yields a non-null
LNURL, and every other string yields null rather than an exception. -/
theorem c10_parse_address_total (s : String) :
    (isLnurlFormat s = true → parseLightningAddress s = some s)
    ∧ (isLnurlFormat s = false → isEmailLike s = true →
        (parseLightningAddress s).isSome = true)
    ∧ (isLnurlFormat s = false → isEmailLike s = false →
        parseLightningAddress s = none) := by
  refine ⟨fun h => ?_, fun h he => ?_, fun h he => ?_⟩
  · unfold parseLightningAddress
    rw [if_pos h]
  · unfold parseLightningAddress
    rw [if_neg (by simp [h])]
    unfold isEmailLike at he
    rcases hp : emailParts s with _ | p
    · rw [hp] at he
      simp at he
    · rfl
  · unfold parseLightningAddress
    rw [if_neg (by simp [h])]
    unfold isEmailLike at he
    rcases hp : emailParts s with _ | p
    · rfl
    · rw [hp] at he
      simp at he

/-- Witness for claim C10 at the three concrete inputs of the unit tests:
an LNURL, an address with a plus sign and a subdomain, and an invalid
string. -/
theorem c10_parse_address_total_witness :
    parseLightningAddress "lnurl1dp68gurn8ghj7" = some "lnurl1dp68gurn8ghj7"
    ∧ (parseLightningAddress "user+test@sub.domain.com").isSome = true
    ∧ parseLightningAddress "not-an-address" = none :=
  ⟨(c10_parse_address_total "lnurl1dp68gurn8ghj7").1 (by decide),
   (c10_parse_address_total "user+test@sub.domain.com").2.1 (by decide) (by decide),
   (c10_parse_address_total "not-an-address").2.2 (by decide) (by decide)⟩

/- ===================== Zap/Payment Orchestrator (spec section 4.4) ===================== -/

/-- Modelled from the spec: the zap request
`{recipient, amountMillisats, targetDescriptor, comment?, relatedEventId?,
relays}` (section 3, Zap/Payment Request).  The zap service source is
missing from the snapshot. -/
structure ZapRequest where
  recipient : String
  amountMillisats : Nat
  targetDescriptor : String
  comment : Option String
  relatedEventId : Option String
  relays : List String
deriving DecidableEq

/-- Modelled from the spec: the receipt `{preimageOrProof, amountMillisats,
settledAt}` returned on backend confirmation (spec 4.4, step 7). -/
structure Receipt where
  preimageOrProof : String
  amountMillisats : Nat
  settledAt : Nat
deriving DecidableEq

/-- Modelled from the spec: the error taxonomy of section 7 as surfaced by
the orchestrator of 4.4. -/
inductive ZapError
  | resolveFailed (e : ResolveError)
  | amountOutOfRange
  | callbackFailed
  | paymentFailed
deriving DecidableEq

/-- Effect trace of one `execute` call: how many fetch, callback and
backend invocations were issued, the comment passed to the callback when
it was invoked, and whether a protocol receipt was attached. -/
structure ExecTrace where
  fetchCalls : Nat
  callbackCalls : Nat
  backendCalls : Nat
  callbackComment : Option (Option String)
  receiptAttached : Bool
deriving DecidableEq

/-- Modelled from the spec: comment truncation, the first `k` characters
(spec 4.4, step 4: truncate to `commentMaxLength` if exceeded). -/
def truncateComment (s : String) (k : Nat) : String :=
  ⟨s.data.take k⟩

/-- Truncation lifted to the optional comment of a request: a comment is
truncated only when it exceeds the limit, otherwise kept whole. -/
def truncOpt (c : Option String) (k : Nat) : Option String :=
  c.map (fun s => if k < s.length then truncateComment s k else s)

/-- Modelled from the spec: `execute(request) -> Receipt` (spec 4.4), a
single sequential attempt: resolve the target, validate the amount bounds
before any payment side effect, attach the protocol receipt when the
descriptor supports it, truncate the comment, call the callback for an
invoice, and hand the invoice to the payment backend.  `cb` is the callback
endpoint (amount and optional comment to optional invoice) and `backend`
the payment backend (invoice to optional preimage); the second component
traces the side effects issued. -/
def execute (net : String → FetchOutcome) (cb : Nat → Option String → Option String)
    (backend : String → Option String) (now : Nat) (req : ZapRequest) :
    Except ZapError Receipt × ExecTrace :=
  match resolve net req.targetDescriptor with
  | (Except.error e, n) => (Except.error (ZapError.resolveFailed e), ⟨n, 0, 0, none, false⟩)
  | (Except.ok d, n) =>
    if req.amountMillisats < d.minSendable ∨ d.maxSendable < req.amountMillisats then
      (Except.error ZapError.amountOutOfRange, ⟨n, 0, 0, none, false⟩)
    else
      let wantsReceipt := d.supportsProtocolComment && d.recipientProtocolKey.isSome
      let c2 := truncOpt req.comment d.commentMaxLength
      match cb req.amountMillisats c2 with
      | none => (Except.error ZapError.callbackFailed, ⟨n, 1, 0, some c2, wantsReceipt⟩)
      | some inv =>
        match backend inv with
        | none => (Except.error ZapError.paymentFailed, ⟨n, 1, 1, some c2, wantsReceipt⟩)
        | some pre =>
          (Except.ok ⟨pre, req.amountMillisats, now⟩, ⟨n, 1, 1, some c2, wantsReceipt⟩)

/- ===================== Claims C2, C6 ===================== -/

/-- Claim C2: for every request whose amount lies outside the resolved
endpoint's `[minSendable, maxSendable]` interval, `execute` fails with
`AmountOutOfRange`, before any payment-side network effect: zero callback
invocations and zero calls to the payment backend. -/
theorem c2_amount_out_of_range (net : String → FetchOutcome)
    (cb : Nat → Option String → Option String) (backend : String → Option String)
    (now : Nat) (req : ZapRequest) (d : PaymentEndpointDescriptor) (n : Nat)
    (hres : resolve net req.targetDescriptor = (Except.ok d, n))
    (hout : req.amountMillisats < d.minSendable ∨ d.maxSendable < req.amountMillisats) :
    (execute net cb backend now req).1 = Except.error ZapError.amountOutOfRange
    ∧ (execute net cb backend now req).2.backendCalls = 0
    ∧ (execute net cb backend now req).2.callbackCalls = 0 := by
  have h1 : execute net cb backend now req
      = (Except.error ZapError.amountOutOfRange, ⟨n, 0, 0, none, false⟩) := by
    unfold execute
    rw [hres]
    simp only [if_pos hout]
  rw [h1]
  exact ⟨rfl, rfl, rfl⟩

/-- Descriptor obtained by decoding the concrete native request
`lnurl11000`: a fixed amount of 1000 millisats, so min = max = 1000. -/
def dNative1000 : PaymentEndpointDescriptor :=
  { callbackUrl := "lnurl11000"
    minSendable := 1000
    maxSendable := 1000
    metadata := ""
    supportsProtocolComment := false
    commentMaxLength := 0
    recipientProtocolKey := none }

/-- A callback endpoint that always hands back an invoice. -/
def cbAlways : Nat → Option String → Option String := fun _ _ => some "lnbc-invoice"

/-- A payment backend that always settles with a preimage. -/
def backendAlways : String → Option String := fun _ => some "preimage"

/-- Concrete request whose 500 millisats amount is below the 1000 millisats
minimum of its resolved endpoint. -/
def reqBelowMin : ZapRequest :=
  { recipient := "npub-recipient"
    amountMillisats := 500
    targetDescriptor := "lnurl11000"
    comment := none
    relatedEventId := none
    relays := [] }

/-- Witness for claim C2: an amount of 500 below the resolved minimum of
1000 fails with `AmountOutOfRange` and issues no callback or backend call. -/
theorem c2_amount_out_of_range_witness :
    (execute netTimeout cbAlways backendAlways 0 reqBelowMin).1
      = Except.error ZapError.amountOutOfRange
    ∧ (execute netTimeout cbAlways backendAlways 0 reqBelowMin).2.backendCalls = 0
    ∧ (execute netTimeout cbAlways backendAlways 0 reqBelowMin).2.callbackCalls = 0 :=
  c2_amount_out_of_range netTimeout cbAlways backendAlways 0 reqBelowMin dNative1000 0
    (by rfl) (Or.inl (by decide))

/-- Claim C6: for every comment longer than the resolved endpoint's
`commentMaxLength`, `execute` truncates the comment to exactly that length,
passes the truncated comment to the callback, and never rejects the request
solely because of comment length (the callback is still invoked). -/
theorem c6_comment_truncated (net : String → FetchOutcome)
    (cb : Nat → Option String → Option String) (backend : String → Option String)
    (now : Nat) (req : ZapRequest) (d : PaymentEndpointDescriptor) (n : Nat) (c : String)
    (hres : resolve net req.targetDescriptor = (Except.ok d, n))
    (hin : ¬(req.amountMillisats < d.minSendable ∨ d.maxSendable < req.amountMillisats))
    (hc : req.comment = some c)
    (hl : d.commentMaxLength < c.length) :
    (execute net cb backend now req).2.callbackComment
      = some (some (truncateComment c d.commentMaxLength))
    ∧ (truncateComment c d.commentMaxLength).length = d.commentMaxLength
    ∧ (execute net cb backend now req).2.callbackCalls = 1 := by
  have hlen : (truncateComment c d.commentMaxLength).length = d.commentMaxLength := by
    simp only [truncateComment, String.length, List.length_take]
    have hcl : d.commentMaxLength < c.data.length := hl
    omega
  have hco : truncOpt req.comment d.commentMaxLength
      = some (truncateComment c d.commentMaxLength) := by
    rw [hc]
    simp [truncOpt, if_pos hl]
  unfold execute
  rw [hres]
  simp only [if_neg hin, hco]
  rcases hcb : cb req.amountMillisats (some (truncateComment c d.commentMaxLength)) with _ | inv
  · simp [hcb, hlen]
  · rcases hbe : backend inv with _ | pre
    · simp [hcb, hbe, hlen]
    · simp [hcb, hbe, hlen]

/-- The payment-request document served by the mocked endpoint of the unit
tests, extended with a comment limit of 144. -/
def doc144 : LnurlPayDoc :=
  { callback := some "https://domain.com/lnurlp/callback"
    minSendable := some 1000
    maxSendable := some 100000000
    metadata := "[sample]"
    tag := "payRequest"
    allowsNostr := some true
    nostrPubkey := some "abc123"
    commentAllowed := some 144 }

/-- A fetch oracle that always serves `doc144`. -/
def netDoc144 : String → FetchOutcome := fun _ => FetchOutcome.ok doc144

/-- Descriptor resolved from `user@domain.com` against `netDoc144`. -/
def d144 : PaymentEndpointDescriptor :=
  { callbackUrl := "https://domain.com/lnurlp/callback"
    minSendable := 1000
    maxSendable := 100000000
    metadata := "[sample]"
    supportsProtocolComment := true
    commentMaxLength := 144
    recipientProtocolKey := some "abc123" }

/-- A concrete 200-character comment, exceeding the 144-character limit. -/
def longComment : String := ⟨List.replicate 200 'A'⟩

/-- Concrete request carrying the 200-character comment. -/
def reqLongComment : ZapRequest :=
  { recipient := "abc123"
    amountMillisats := 21000
    targetDescriptor := "user@domain.com"
    comment := some longComment
    relatedEventId := some "event123"
    relays := ["wss-relay-test"] }

set_option maxRecDepth 8192 in
/-- Witness for claim C6: a 200-character comment against a 144-character
limit is passed to the callback truncated to exactly 144 characters, and
the callback is still invoked. -/
theorem c6_comment_truncated_witness :
    (execute netDoc144 cbAlways backendAlways 0 reqLongComment).2.callbackComment
      = some (some (truncateComment longComment 144))
    ∧ (truncateComment longComment 144).length = 144
    ∧ (execute netDoc144 cbAlways backendAlways 0 reqLongComment).2.callbackCalls = 1 :=
  c6_comment_truncated netDoc144 cbAlways backendAlways 0 reqLongComment d144 1 longComment
    (by rfl) (by decide) (by rfl) (by decide)

/- ===================== Ecash Ledger Reconciler (spec section 4.5) ===================== -/

/-- Modelled from the spec: the mint quote status tracked by the
reconciler: pending until confirmed, or expired.  The cashu ledger service
source is missing from the snapshot. -/
inductive QuoteStatus
  | pending
  | confirmed
  | expired
deriving DecidableEq

/-- Modelled from the spec: a pending mint quote
`{quoteId, invoiceOrToken, amountSats, mintUrl, createdAt, expiresAt}`
(section 3, Pending Mint Quote). -/
structure Quote where
  quoteId : String
  invoiceOrToken : String
  amountSats : Nat
  mintUrl : String
  createdAt : Nat
  expiresAt : Nat
deriving DecidableEq

/-- A quote together with its reconciliation status. -/
structure QuoteEntry where
  quote : Quote
  status : QuoteStatus
deriving DecidableEq

/-- Modelled from the spec: a mint trust record `{url, name, trusted}`
(section 3, Mint Trust Record). -/
structure MintRecord where
  url : String
  name : String
  trusted : Bool
deriving DecidableEq

/-- Modelled from the spec: the reconciler state: the persisted
Balance-by-Mint mapping, the tracked quotes, and the mint registry
(sections 3 and 4.5). -/
structure LedgerState where
  balanceByMint : List (String × Nat)
  quotes : List QuoteEntry
  mints : List MintRecord
deriving DecidableEq

/-- Sum of the values of a balance mapping. -/
def sumValues (l : List (String × Nat)) : Nat :=
  (l.map Prod.snd).sum

/-- Modelled from the spec: `totalBalance()`, the sum over all entries of
Balance-by-Mint (section 3, Balance-by-Mint). -/
def totalBalance (st : LedgerState) : Nat :=
  sumValues st.balanceByMint

/-- Credits an amount to a mint in the balance mapping, inserting the mint
when absent. -/
def addBalance : List (String × Nat) → String → Nat → List (String × Nat)
  | [], url, amt => [(url, amt)]
  | (u, b) :: rest, url, amt =>
    if u = url then (u, b + amt) :: rest
    else (u, b) :: addBalance rest url amt

/-- Whether a quote entry carries the given quote id. -/
def keyMatch (qid : String) (e : QuoteEntry) : Bool :=
  e.quote.quoteId == qid

/-- Marks every entry with the given quote id as confirmed. -/
def setConfirmed : List QuoteEntry → String → List QuoteEntry
  | [], _ => []
  | e :: t, qid =>
    (if e.quote.quoteId == qid then ⟨e.quote, QuoteStatus.confirmed⟩ else e)
      :: setConfirmed t qid

/-- Modelled from the spec: the result of `confirmQuote` (spec 4.5): the
applied balance delta, or the informational `AlreadyProcessed`/`Expired`
results, or a miss. -/
inductive ConfirmResult
  | ok (delta : Nat)
  | alreadyProcessed
  | expired
  | notFound
deriving DecidableEq

/-- Modelled from the spec: `confirmQuote(quoteId) -> balance delta`
(spec 4.5): applies the balance change to Balance-by-Mint exactly once;
an already-confirmed quote yields `AlreadyProcessed`, an expired one
`Expired`, with no balance change. -/
def confirmQuote (now : Nat) (st : LedgerState) (qid : String) :
    ConfirmResult × LedgerState :=
  match st.quotes.find? (keyMatch qid) with
  | none => (ConfirmResult.notFound, st)
  | some e =>
    match e.status with
    | QuoteStatus.confirmed => (ConfirmResult.alreadyProcessed, st)
    | QuoteStatus.expired => (ConfirmResult.expired, st)
    | QuoteStatus.pending =>
      if e.quote.expiresAt < now then (ConfirmResult.expired, st)
      else
        (ConfirmResult.ok e.quote.amountSats,
         { balanceByMint := addBalance st.balanceByMint e.quote.mintUrl e.quote.amountSats
           quotes := setConfirmed st.quotes qid
           mints := st.mints })

/-- Result of `recordPendingQuote` (spec 4.5). -/
inductive RecordResult
  | ok
  | duplicateQuote
deriving DecidableEq

/-- Modelled from the spec: `recordPendingQuote(quote)` (spec 4.5): fails
with `DuplicateQuote` when an unexpired pending quote already exists for
the same `(mintUrl, amountSats)` tuple, otherwise tracks the quote. -/
def recordPendingQuote (now : Nat) (st : LedgerState) (q : Quote) :
    RecordResult × LedgerState :=
  if st.quotes.any (fun e =>
      e.status == QuoteStatus.pending
      && e.quote.mintUrl == q.mintUrl
      && e.quote.amountSats == q.amountSats
      && now ≤ e.quote.expiresAt) then
    (RecordResult.duplicateQuote, st)
  else
    (RecordResult.ok,
     { balanceByMint := st.balanceByMint
       quotes := st.quotes ++ [⟨q, QuoteStatus.pending⟩]
       mints := st.mints })

/-- Modelled from the spec: `expireStale(now)` (spec 4.5): removes quotes
past `expiresAt`, so that they can never be confirmed afterward. -/
def expireStale (now : Nat) (st : LedgerState) : LedgerState :=
  { balanceByMint := st.balanceByMint
    quotes := st.quotes.filter (fun e => now ≤ e.quote.expiresAt)
    mints := st.mints }

/-- Modelled from the spec: registering a mint in the trust registry
(section 3, Mint Trust Record; the marketplace unit tests exercise
`addMint`). -/
def addMint (st : LedgerState) (m : MintRecord) : LedgerState :=
  { balanceByMint := st.balanceByMint
    quotes := st.quotes
    mints := st.mints ++ [m] }

/- ===================== Claims C3, C4 ===================== -/

/-- Finding by quote id after marking that id confirmed finds the same
quote, now confirmed. -/
theorem find?_setConfirmed (qs : List QuoteEntry) (qid : String) :
    (setConfirmed qs qid).find? (keyMatch qid)
      = (qs.find? (keyMatch qid)).map (fun e => ⟨e.quote, QuoteStatus.confirmed⟩) := by
  induction qs with
  | nil => rfl
  | cons a t ih =>
    by_cases h : a.quote.quoteId == qid
    · simp [setConfirmed, keyMatch, List.find?_cons, h]
    · have hb : (a.quote.quoteId == qid) = false := by
        simpa using h
      simp [setConfirmed, keyMatch, List.find?_cons, hb, ih]

/-- A missing quote id leaves `confirmQuote` a no-op. -/
theorem confirmQuote_none (now : Nat) (st : LedgerState) (qid : String)
    (h : st.quotes.find? (keyMatch qid) = none) :
    confirmQuote now st qid = (ConfirmResult.notFound, st) := by
  unfold confirmQuote
  rw [h]

/-- An already-confirmed quote makes `confirmQuote` return
`AlreadyProcessed` without touching the state. -/
theorem confirmQuote_confirmed (now : Nat) (st : LedgerState) (qid : String) (q : Quote)
    (h : st.quotes.find? (keyMatch qid) = some ⟨q, QuoteStatus.confirmed⟩) :
    confirmQuote now st qid = (ConfirmResult.alreadyProcessed, st) := by
  unfold confirmQuote
  rw [h]

/-- An expired quote makes `confirmQuote` return `Expired` without touching
the state. -/
theorem confirmQuote_expired (now : Nat) (st : LedgerState) (qid : String) (q : Quote)
    (h : st.quotes.find? (keyMatch qid) = some ⟨q, QuoteStatus.expired⟩) :
    confirmQuote now st qid = (ConfirmResult.expired, st) := by
  unfold confirmQuote
  rw [h]

/-- A pending quote past its expiry makes `confirmQuote` return `Expired`
without touching the state. -/
theorem confirmQuote_pending_stale (now : Nat) (st : LedgerState) (qid : String) (q : Quote)
    (h : st.quotes.find? (keyMatch qid) = some ⟨q, QuoteStatus.pending⟩)
    (hexp : q.expiresAt < now) :
    confirmQuote now st qid = (ConfirmResult.expired, st) := by
  unfold confirmQuote
  rw [h]
  simp [hexp]

/-- A live pending quote is confirmed: the delta is credited and the quote
marked confirmed. -/
theorem confirmQuote_pending_live (now : Nat) (st : LedgerState) (qid : String) (q : Quote)
    (h : st.quotes.find? (keyMatch qid) = some ⟨q, QuoteStatus.pending⟩)
    (hexp : ¬ q.expiresAt < now) :
    confirmQuote now st qid
      = (ConfirmResult.ok q.amountSats,
         { balanceByMint := addBalance st.balanceByMint q.mintUrl q.amountSats
           quotes := setConfirmed st.quotes qid
           mints := st.mints }) := by
  unfold confirmQuote
  rw [h]
  simp [hexp]

/-- Claim C3: a second `confirmQuote` on the same quote id is a no-op: the
state (hence the balance) is unchanged by the second call, `totalBalance`
after two calls equals `totalBalance` after one call, and when the first
call applied a delta the second returns `AlreadyProcessed` rather than
re-applying it. -/
theorem c3_confirm_idempotent (now : Nat) (st : LedgerState) (qid : String) :
    (confirmQuote now (confirmQuote now st qid).2 qid).2 = (confirmQuote now st qid).2
    ∧ totalBalance (confirmQuote now (confirmQuote now st qid).2 qid).2
        = totalBalance (confirmQuote now st qid).2
    ∧ ∀ delta, (confirmQuote now st qid).1 = ConfirmResult.ok delta →
        (confirmQuote now (confirmQuote now st qid).2 qid).1
          = ConfirmResult.alreadyProcessed := by
  rcases hfind : st.quotes.find? (keyMatch qid) with _ | e
  · have h1 := confirmQuote_none now st qid hfind
    refine ⟨by simp only [h1], by simp only [h1], fun delta hd => ?_⟩
    rw [h1] at hd
    simp at hd
  · rcases e with ⟨q, s⟩
    cases s with
    | confirmed =>
      have h1 := confirmQuote_confirmed now st qid q hfind
      refine ⟨by simp only [h1], by simp only [h1], fun delta hd => ?_⟩
      rw [h1] at hd
      simp at hd
    | expired =>
      have h1 := confirmQuote_expired now st qid q hfind
      refine ⟨by simp only [h1], by simp only [h1], fun delta hd => ?_⟩
      rw [h1] at hd
      simp at hd
    | pending =>
      by_cases hexp : q.expiresAt < now
      · have h1 := confirmQuote_pending_stale now st qid q hfind hexp
        refine ⟨by simp only [h1], by simp only [h1], fun delta hd => ?_⟩
        rw [h1] at hd
        simp at hd
      · have h1 := confirmQuote_pending_live now st qid q hfind hexp
        have h2 : (setConfirmed st.quotes qid).find? (keyMatch qid)
            = some ⟨q, QuoteStatus.confirmed⟩ := by
          rw [find?_setConfirmed, hfind]
          rfl
        have h3 := confirmQuote_confirmed now
          { balanceByMint := addBalance st.balanceByMint q.mintUrl q.amountSats
            quotes := setConfirmed st.quotes qid
            mints := st.mints } qid q h2
        exact ⟨by simp only [h1, h3], by simp only [h1, h3],
          fun delta hd => by simp only [h1, h3]⟩

/-- Concrete ledger state for the C3 witness: one mint holding 1000 sats
and one live pending 500-sat quote. -/
def c3State : LedgerState :=
  { balanceByMint := [("https://mint.test", 1000)]
    quotes := [⟨⟨"q1", "lnbc-invoice", 500, "https://mint.test", 0, 1000⟩,
               QuoteStatus.pending⟩]
    mints := [⟨"https://mint.test", "Test Mint", true⟩] }

/-- Witness for claim C3 at a concrete state: the first `confirmQuote`
applies the 500-sat delta and the second returns `AlreadyProcessed` with
an unchanged total balance. -/
theorem c3_confirm_idempotent_witness :
    (confirmQuote 0 (confirmQuote 0 c3State "q1").2 "q1").1
      = ConfirmResult.alreadyProcessed
    ∧ totalBalance (confirmQuote 0 (confirmQuote 0 c3State "q1").2 "q1").2
        = totalBalance (confirmQuote 0 c3State "q1").2 :=
  ⟨(c3_confirm_idempotent 0 c3State "q1").2.2 500 (by rfl),
   (c3_confirm_idempotent 0 c3State "q1").2.1⟩

/-- Concrete ledger state for the scenario of claim C4: the trusted mint
`https://mint.test` holding 1000 sats and a live pending 500-sat quote. -/
def c4State : LedgerState :=
  { balanceByMint := [("https://mint.test", 1000)]
    quotes := [⟨⟨"q500", "lnbc-invoice", 500, "https://mint.test", 0, 3600000⟩,
               QuoteStatus.pending⟩]
    mints := [⟨"https://mint.test", "Test Mint", true⟩] }

/-- Claim C4: `totalBalance` always equals the sum of the values of the
Balance-by-Mint mapping; no operation outside `confirmQuote` and the
explicit mint registration mutates `balanceByMint` (`recordPendingQuote`,
`expireStale` and `addMint` all preserve it); and in the concrete scenario
a mint holding 1000 sats reaches 1500 for that mint and a total of 1500
after confirming a 500-sat quote. -/
theorem c4_balance_invariant :
    (∀ st : LedgerState, totalBalance st = sumValues st.balanceByMint)
    ∧ (∀ (now : Nat) (st : LedgerState) (q : Quote),
        ((recordPendingQuote now st q).2).balanceByMint = st.balanceByMint)
    ∧ (∀ (now : Nat) (st : LedgerState),
        (expireStale now st).balanceByMint = st.balanceByMint)
    ∧ (∀ (st : LedgerState) (m : MintRecord),
        (addMint st m).balanceByMint = st.balanceByMint)
    ∧ ((confirmQuote 0 c4State "q500").2.balanceByMint.lookup "https://mint.test"
         = some 1500
       ∧ totalBalance (confirmQuote 0 c4State "q500").2 = 1500) := by
  refine ⟨fun st => rfl, fun now st q => ?_, fun now st => rfl, fun st m => rfl, ?_, ?_⟩
  · unfold recordPendingQuote
    split
    · rfl
    · rfl
  · rfl
  · rfl
